import Mathlib

/-!
Shallow embedding of the ai-happenings article pipeline
(src/scrapers/web_scraper.py, src/prioritizers/article_prioritizer.py,
src/utils/action_tracker.py) together with proofs settling the frozen
claims C1..C10 about it.

Conventions of the embedding:
* Python floats are modelled as rationals (ℚ); all arithmetic appearing in
  the claims is exact decimal arithmetic, where float and rational agree.
* Python datetimes are modelled by their calendar-day ordinal (ℤ) where only
  the day matters (UsageLimiter), and by age-in-hours (ℚ) where the
  prioritizer consumes them.
* Python substring tests (the `in` operator on str) are modelled by a
  contiguous-sublist test on the character list of the string.
* The dynamically-typed article dict is modelled by a fixed-schema record;
  the `analysis` entry, whose malformed shapes are the only exception source
  inside ArticlePrioritizer.calculate_priority_score, is a tagged value with
  an explicit `malformed` case standing for any shape whose field access
  raises.
-/

/-- Python `str.lower()` restricted to the character-wise case mapping. -/
def lower (s : String) : String := String.mk (s.data.map Char.toLower)

/-- Contiguous-sublist test on character lists: `py_in pat s` is Python
`pat in s` for strings. -/
def py_in (pat s : List Char) : Bool :=
  match s with
  | [] => pat.isEmpty
  | _ :: t => pat.isPrefixOf s || py_in pat t

/-- Python `pat in s` for strings. -/
def strContains (s pat : String) : Bool := py_in pat.data s.data

/-- Python `s.startswith(pre)`. -/
def py_startswith (s pre : String) : Bool := pre.data.isPrefixOf s.data

/-- Python `s.replace(pat, rep)` on character lists: leftmost non-overlapping
occurrences, scanning left to right (`pat` is never empty where this is
used). -/
def replace_list (pat rep : List Char) : List Char → List Char
  | [] => []
  | c :: t =>
      if h : pat ≠ [] ∧ pat.isPrefixOf (c :: t) then
        rep ++ replace_list pat rep ((c :: t).drop pat.length)
      else c :: replace_list pat rep t
termination_by s => s.length
decreasing_by
  · simp only [List.length_drop, List.length_cons]
    have : 0 < pat.length := List.length_pos.mpr h.1
    omega
  · simp only [List.length_cons]
    omega

/-- Python `s.replace(pat, rep)` for strings. -/
def py_replace (s pat rep : String) : String :=
  String.mk (replace_list pat.data rep.data s.data)

/-! ## UsageLimiter (src/utils/action_tracker.py, lines 240-314)

State of a `UsageLimiter` instance: `daily_limit` and `daily_usage` are the
float fields, `day_start` is `datetime.now().date()` modelled as a calendar
day ordinal.  Methods that read the clock take `today` as an argument. -/

structure UsageLimiter where
  daily_limit : ℚ
  daily_usage : ℚ
  day_start : ℤ
deriving Repr

namespace UsageLimiter

/-- Models `UsageLimiter.check_limit` (action_tracker.py lines 256-284): resets the
daily counter when the calendar day changed, then answers whether
`daily_usage + required_credits` stays within `daily_limit`.  Returns the
boolean together with the (possibly reset) state. -/
def check_limit (s : UsageLimiter) (today : ℤ) (required_credits : ℚ) :
    Bool × UsageLimiter :=
  let s :=
    if today ≠ s.day_start then
      { s with daily_usage := 0, day_start := today }
    else s
  if s.daily_usage + required_credits > s.daily_limit then (false, s)
  else (true, s)

/-- Models `UsageLimiter.consume_credits` (action_tracker.py lines 286-304):
unconditionally increments `daily_usage`; it never consults the clock and
never resets. -/
def consume_credits (s : UsageLimiter) (credits : ℚ) : UsageLimiter :=
  { s with daily_usage := s.daily_usage + credits }

/-- Models `UsageLimiter.get_remaining_balance` (action_tracker.py lines 306-313):
pure read of `max(0, daily_limit - daily_usage)`; no reset, no state change. -/
def get_remaining_balance (s : UsageLimiter) : ℚ :=
  max 0 (s.daily_limit - s.daily_usage)

end UsageLimiter

/-! ## Article records

The article dictionaries built by WebScraper._parse_article and consumed by
ArticlePrioritizer.  `age_hours` is the age of the `scraped_at` timestamp at
the time the prioritizer runs (`none` = missing or unparseable timestamp,
both of which the code maps to the same default).  `analysis` is the
`analysis` entry: `absent` (key missing, the code then reads defaults from
an empty dict), `present` (a dict carrying `relevance_score` and
`linkedin_post`), or `malformed` (any shape whose field access raises). -/

inductive AnalysisVal where
  | absent : AnalysisVal
  | present (relevance_score : ℚ) (linkedin_post : String) : AnalysisVal
  | malformed : AnalysisVal
deriving Repr, DecidableEq

structure Article where
  title : String
  link : String
  excerpt : String
  source : String
  content : String := ""
  age_hours : Option ℚ := some 0
  analysis : AnalysisVal := .absent
  relevance_score : ℚ := 0
  priority_score : ℚ := 0
  priority_rank : Nat := 0
deriving Repr

/-! ## Relevance scoring (WebScraper._calculate_relevance_score, lines 363-403)

The scorer walks `self.keywords` — five keyword categories built by
_load_keywords — and for each keyword adds `weight * title_multiplier` on a
title match, else `weight` on an excerpt match (first match wins, counted
once).  The weight of category `c` is `scoring_weights.get(c + "_keyword",
1.0)`; the config record below carries the resolved weights. -/

structure ScoringConfig where
  primary_keywords : List String
  secondary_keywords : List String
  tertiary_keywords : List String
  technology_keywords : List String
  business_keywords : List String
  primary_weight : ℚ
  secondary_weight : ℚ
  tertiary_weight : ℚ
  technology_weight : ℚ
  business_weight : ℚ
  title_multiplier : ℚ

/-- The five (keyword list, weight) pairs in the iteration order of
`self.keywords.items()` (_load_keywords, lines 97-106). -/
def ScoringConfig.categories (cfg : ScoringConfig) : List (List String × ℚ) :=
  [(cfg.primary_keywords, cfg.primary_weight),
   (cfg.secondary_keywords, cfg.secondary_weight),
   (cfg.tertiary_keywords, cfg.tertiary_weight),
   (cfg.technology_keywords, cfg.technology_weight),
   (cfg.business_keywords, cfg.business_weight)]

/-- The scorer resolved from _get_default_config (lines 64-95): primary
keywords as listed, all other categories empty; weights 10/5/2 from
`scoring_weights`, 1.0 fallback for the two categories without an entry;
title multiplier 2. -/
def default_scoring_config : ScoringConfig where
  primary_keywords := ["ai", "artificial intelligence", "machine learning"]
  secondary_keywords := []
  tertiary_keywords := []
  technology_keywords := []
  business_keywords := []
  primary_weight := 10
  secondary_weight := 5
  tertiary_weight := 2
  technology_weight := 1
  business_weight := 1
  title_multiplier := 2

/-- Where a keyword first matches: the title branch, the excerpt branch, or
neither (the if/elif at lines 385-393). -/
inductive MatchKind where
  | inTitle : MatchKind
  | inExcerpt : MatchKind
  | noMatch : MatchKind
deriving Repr, DecidableEq

/-- The if/elif test at lines 385-393 for one keyword against the (already
lowercased) title and excerpt. -/
def match_kind (title excerpt kw : String) : MatchKind :=
  if strContains title kw then .inTitle
  else if strContains excerpt kw then .inExcerpt
  else .noMatch

/-- Score contribution of one keyword (lines 386-393). -/
def kw_score (weight mult : ℚ) : MatchKind → ℚ
  | .inTitle => weight * mult
  | .inExcerpt => weight
  | .noMatch => 0

/-- Contribution of one keyword to the `matches` counter (lines 386-393). -/
def kw_matches : MatchKind → Nat
  | .inTitle => 1
  | .inExcerpt => 1
  | .noMatch => 0

/-- Raw score of one keyword category (inner loop, lines 385-393). -/
def category_raw (title excerpt : String) (weight mult : ℚ)
    (kws : List String) : ℚ :=
  (kws.map (fun kw => kw_score weight mult (match_kind title excerpt kw))).sum

/-- Match count of one keyword category (inner loop, lines 385-393). -/
def category_matches (title excerpt : String) (kws : List String) : Nat :=
  (kws.map (fun kw => kw_matches (match_kind title excerpt kw))).sum

/-- The accumulated `score` after the category loop (lines 373-393), on
lowercased title and excerpt.  The `if not keywords: continue` guard skips
empty lists, whose contribution is 0 anyway. -/
def raw_relevance (cfg : ScoringConfig) (title excerpt : String) : ℚ :=
  (cfg.categories.map (fun c =>
    category_raw title excerpt c.2 cfg.title_multiplier c.1)).sum

/-- The accumulated `matches` counter after the category loop. -/
def relevance_matches (cfg : ScoringConfig) (title excerpt : String) : Nat :=
  (cfg.categories.map (fun c => category_matches title excerpt c.1)).sum

/-- Python `round(q, 3)` on exact values: round to the nearest multiple of
1/1000.  (Python rounds ties to even on binary floats; no tie arises in any
value this development evaluates.) -/
def round3 (q : ℚ) : ℚ := (round (q * 1000) : ℚ) / 1000

/-- Models `WebScraper._calculate_relevance_score` (lines 363-403): lowercase the
title and excerpt, accumulate the weighted keyword matches, then normalize
to `min(score / 50, 1.0)` rounded to 3 decimals, or exactly 0.0 when no
keyword matched. -/
def calculate_relevance_score (cfg : ScoringConfig)
    (title excerpt : String) : ℚ :=
  let t := lower title
  let e := lower excerpt
  if 0 < relevance_matches cfg t e then
    round3 (min (raw_relevance cfg t e / 50) 1)
  else 0

/-! ## Deduplication and per-candidate admission
(WebScraper._is_new_article lines 357-361, and the candidate loop of
_scrape_web lines 193-202) -/

/-- Models `WebScraper._is_new_article`: with the `deduplicate` setting off
(default on) everything counts as new; otherwise new means the link is not
in `seen_urls`. -/
def is_new_article (deduplicate_setting : Bool) (seen_urls : List String)
    (link : String) : Bool :=
  if !deduplicate_setting then true
  else !(seen_urls.contains link)

/-- One iteration of the candidate loop of `_scrape_web` (lines 193-202)
for an already parsed candidate: check `_is_new_article`, score, and on
passing the `min_relevance_score` threshold accept the article and add its
link to `seen_urls`.  Returns whether the candidate was newly admitted into
the output together with the updated seen-set. -/
def process_candidate (deduplicate_setting : Bool) (min_score : ℚ)
    (cfg : ScoringConfig) (seen_urls : List String) (a : Article) :
    Bool × List String :=
  if is_new_article deduplicate_setting seen_urls a.link then
    let s := calculate_relevance_score cfg a.title a.excerpt
    if min_score ≤ s then (true, a.link :: seen_urls)
    else (false, seen_urls)
  else (false, seen_urls)

/-! ## Article parsing (WebScraper._parse_article, lines 324-355) -/

/-- The base-domain guess of _parse_article (line 335):
`source_name.lower().replace(' ', '').replace('ai', '').replace('rss', '')`. -/
def base_domain_of (source_name : String) : String :=
  py_replace (py_replace (py_replace (lower source_name) " " "") "ai" "") "rss" ""

/-- Link absolutization (lines 334-336): a non-empty link that does not
start with `http` is resolved against the guessed domain. -/
def resolve_link (source_name link : String) : String :=
  if link ≠ "" && !(py_startswith link "http") then
    "https://" ++ base_domain_of source_name ++ ".com" ++ link
  else link

/-- Python slice `s[:500]` used on the excerpt (line 339). -/
def truncate500 (s : String) : String := String.mk (s.data.take 500)

/-- Models `WebScraper._parse_article` (lines 324-355) on the extracted pieces of
an element: optional title text, optional href, optional excerpt text.
The code reads `min_article_length` from the settings (default 100, line
341) but the rejection check (line 342) compares the title length against
the literal 10, so the parameter is read and then unused — exactly as in
the source.  Rejection returns `none`; otherwise the populated record of
lines 345-352 is returned. -/
def parse_article (min_article_length : Nat) (title link excerpt : Option String)
    (source_name : String) : Option Article :=
  let _ := min_article_length
  let resolved := link.map (resolve_link source_name)
  let excerptS := match excerpt with
    | some e => truncate500 e
    | none => ""
  match title, resolved with
  | some t, some l =>
      if t = "" || l = "" || t.length < 10 then none
      else some { title := t, link := l, excerpt := excerptS,
                  source := source_name }
  | some _, none => none
  | none, _ => none

/-! ## Per-source fetch, error swallowing, and the dead retry loop
(WebScraper.scrape_source lines 119-153, _scrape_web lines 155-249)

_scrape_web runs its whole body — the HTTP request, raise_for_status (line
186) and the candidate loop — inside one try whose handlers (lines 218-247)
catch httpx.HTTPStatusError and every other exception, emit a
scraping_failed event, print "Continuing with other sources...", and fall
through to `return articles` (line 249).  The fetch raises before any
article is accumulated, so on any fetch error the returned list is empty.
_scrape_web therefore returns normally on every fetch outcome and never
raises into scrape_source.

scrape_source (lines 119-153) reads max_retries and retry_delay and runs
`for attempt in range(max_retries)`, whose try body just returns
_scrape_web's result.  Its except branches — the HTTP-429 branch with
wait_time = retry_delay * (attempt + 1) at lines 138-145 and the generic
retry branch at lines 146-151 — are unreachable, because the body cannot
raise.  So the first attempt's list is returned with no sleeps, and the
trailing `return []` (line 153) is reached only when max_retries is 0. -/

inductive FetchOutcome where
  | ok (arts : List Article) : FetchOutcome
  | httpStatusError (status : Nat) : FetchOutcome
  | otherError : FetchOutcome

/-- Models `WebScraper._scrape_web` (lines 155-249): on a successful fetch
the accepted articles of the candidate loop (modelled per candidate by
process_candidate) are returned; an HTTP error raised by raise_for_status —
429 and permanent statuses alike — or any other fetch exception is caught
by the handlers at lines 218-247 and the empty accumulated list is
returned.  The function is total: no exception escapes. -/
def scrape_web_sim (fetch : FetchOutcome) : List Article :=
  match fetch with
  | .ok arts => arts
  | .httpStatusError _ => []
  | .otherError => []

structure RetryTrace where
  delays : List ℚ
  attempts_made : Nat
  result : Except String (List Article)
deriving Repr

/-- Models `WebScraper.scrape_source` (lines 119-153) with the per-attempt
fetch outcome given by an oracle: the trace records the backoff sleeps
performed, the number of attempts made, and the returned value (as an
Except, to state that no exception propagates to the caller).  Because
_scrape_web returns normally on every fetch outcome, the loop body never
raises: the first attempt's result is returned with no sleeps.
retry_delay is read (line 130) but never used, and the except branches of
lines 138-151 leave no trace because they are unreachable; the `return []`
fall-through (line 153) fires only for max_retries = 0. -/
def scrape_source_sim (outcomes : Nat → FetchOutcome) (max_retries : Nat)
    (retry_delay : ℚ) : RetryTrace :=
  let _ := retry_delay
  if 0 < max_retries then ⟨[], 1, .ok (scrape_web_sim (outcomes 0))⟩
  else ⟨[], 0, .ok []⟩

/-! ## Stable descending sort

Both `sorted(..., key=..., reverse=True)` calls of the code (relevance sort
in scrape_all_sources line 444, priority sort in prioritize_articles lines
178-182) are Python's stable sort taken descending on a rational key.  The
embedding uses insertion from the left: each element is placed after every
already-placed element whose key is ≥ its own, which is exactly the unique
descending order that preserves the original relative order of equal keys. -/

def insert_desc {α : Type} (key : α → ℚ) (x : α) : List α → List α
  | [] => [x]
  | y :: ys => if key y < key x then x :: y :: ys else y :: insert_desc key x ys

def sort_desc {α : Type} (key : α → ℚ) (l : List α) : List α :=
  l.foldl (fun acc x => insert_desc key x acc) []

/-! ## Concurrent fan-out aggregation (WebScraper.scrape_all_sources,
lines 405-481)

`asyncio.gather(*tasks, return_exceptions=True)` yields one result per
source, in source order: a list of articles for a source whose task
returned, or the exception object for a source whose task raised.  Sibling
tasks are not cancelled; every source contributes exactly one entry.  The
loop at lines 432-440 counts successes and failures and records a
per-source article count, 0 for a failed source. -/

structure ScrapeReport where
  successful_sources : Nat
  failed_sources : Nat
  articles_by_source : List (String × Nat)
deriving Repr, DecidableEq

/-- The aggregation loop (lines 427-440) over the zipped
(source name, gather result) pairs. -/
def aggregate_results :
    List (String × Except String (List Article)) → List Article × ScrapeReport
  | [] => ([], ⟨0, 0, []⟩)
  | (name, .ok arts) :: rest =>
      let (acc, r) := aggregate_results rest
      (arts ++ acc,
       ⟨r.successful_sources + 1, r.failed_sources,
        (name, arts.length) :: r.articles_by_source⟩)
  | (name, .error _) :: rest =>
      let (acc, r) := aggregate_results rest
      (acc,
       ⟨r.successful_sources, r.failed_sources + 1,
        (name, 0) :: r.articles_by_source⟩)

/-- Models `WebScraper.scrape_all_sources` after the gather: aggregate, then sort
by relevance descending when `output_settings.sort_by_relevance` (default
true) is set, then truncate to `output_settings.max_articles_output`
(default 50) — lines 427-448. -/
def scrape_all_sources_model (names : List String)
    (results : List (Except String (List Article)))
    (sort_by_relevance : Bool) (max_articles_output : Nat) :
    List Article × ScrapeReport :=
  let (arts, report) := aggregate_results (names.zip results)
  let arts :=
    if sort_by_relevance then sort_desc (fun a => a.relevance_score) arts
    else arts
  (arts.take max_articles_output, report)

/-! ## ArticlePrioritizer (src/prioritizers/article_prioritizer.py) -/

/-- The static `source_scores` table with its `default` fallback
(article_prioritizer.py lines 32-39, lookup at lines 59-62). -/
def source_quality_score (source : String) : ℚ :=
  if source = "TechCrunch" then 9
  else if source = "VentureBeat AI" then 8.5
  else if source = "MIT Technology Review" then 10
  else if source = "The Verge" then 8
  else if source = "Wired" then 8.5
  else 7

/-- Models `ArticlePrioritizer._calculate_recency_score` (lines 81-112): step
function of the age in hours; a missing or unparseable timestamp gives the
5.0 default (its own try/except, so it never propagates an exception). -/
def recency_score (age_hours : Option ℚ) : ℚ :=
  match age_hours with
  | none => 5
  | some h =>
      if h < 6 then 10
      else if h < 24 then 8
      else if h < 48 then 6
      else if h < 72 then 4
      else 2

/-- The engagement keyword list (lines 130-135). -/
def engagement_keywords : List String :=
  ["breakthrough", "revolutionary", "game-changing",
   "announces", "launches", "unveils",
   "first", "new", "innovative",
   "record", "major", "significant"]

/-- Models `ArticlePrioritizer._calculate_engagement_score` (lines 114-149) on the
lowercased title and linkedin_post text: base 5.0, +0.5 per matching
engagement keyword, +1.0 for a question mark, +0.5 for a hashtag, capped
at 10.0. -/
def engagement_score (title linkedin_post : String) : ℚ :=
  let s : ℚ := 5 +
    (engagement_keywords.filter
      (fun kw => strContains title kw || strContains linkedin_post kw)).length
      * (1 / 2)
  let s := if strContains linkedin_post "?" then s + 1 else s
  let s := if strContains linkedin_post "#" then s + 1 / 2 else s
  min s 10

/-- Models `article.get("analysis", {}).get("relevance_score", 5.0)` (line 53) for
well-formed analysis values. -/
def analysis_relevance : AnalysisVal → ℚ
  | .present r _ => r
  | _ => 5

/-- Models `article.get("analysis", {}).get("linkedin_post", "")` (line 127) for
well-formed analysis values. -/
def analysis_linkedin : AnalysisVal → String
  | .present _ t => t
  | _ => ""

/-- Models `ArticlePrioritizer.calculate_priority_score` (lines 41-79): weighted
sum of the four factor scores, clamped into [0, 100]; a malformed analysis
value makes the first field access raise, and the catch-all handler returns
the default 50.0. -/
def calculate_priority_score (a : Article) : ℚ :=
  match a.analysis with
  | .malformed => 50
  | v =>
      let rel := analysis_relevance v
      let rec_s := recency_score a.age_hours
      let src := source_quality_score a.source
      let eng := engagement_score (lower a.title) (lower (analysis_linkedin v))
      let total := rel * (1 / 2) * 10 + rec_s * (1 / 4) * 10 +
        src * (3 / 20) * 10 + eng * (1 / 10) * 10
      min (max total 0) 100

/-- The per-article mutation of the scoring loop (lines 172-175):
`priority_score` set, `priority_rank` reset to 0. -/
def score_article (a : Article) : Article :=
  { a with priority_score := calculate_priority_score a, priority_rank := 0 }

/-- Rank assignment by position in the sorted sequence
(`enumerate(sorted_articles, 1)`, lines 185-186). -/
def assign_ranks : Nat → List Article → List Article
  | _, [] => []
  | n, a :: rest => { a with priority_rank := n } :: assign_ranks (n + 1) rest

/-- Models `ArticlePrioritizer.prioritize_articles` (lines 151-201): score every
article, stable-sort descending by priority score, assign 1-based ranks. -/
def prioritize_articles (articles : List Article) : List Article :=
  assign_ranks 1
    (sort_desc (fun a => a.priority_score) (articles.map score_article))

/-- Forget the rank field; used to speak about output articles modulo the
rank that assign_ranks wrote. -/
def clear_rank (a : Article) : Article := { a with priority_rank := 0 }

/-! # Theorems settling the claims -/

/-- C1: check_limit returns true iff the current-window usage (reset to 0
when the calendar day changed since day_start) plus the required credits is
at most the daily limit, and the state it leaves behind carries that reset
usage; in particular with dailyLimit=10, after consume_credits(6) on the
same day, check_limit(5) is false and check_limit(4) is true. -/
theorem check_limit_spec :
    (∀ (s : UsageLimiter) (today : ℤ) (r : ℚ),
      ((s.check_limit today r).1 = true ↔
        (if today = s.day_start then s.daily_usage else 0) + r ≤ s.daily_limit)
      ∧ (s.check_limit today r).2.daily_usage =
          (if today = s.day_start then s.daily_usage else 0))
    ∧ (((UsageLimiter.consume_credits ⟨10, 0, 0⟩ 6).check_limit 0 5).1 = false
       ∧ ((UsageLimiter.consume_credits ⟨10, 0, 0⟩ 6).check_limit 0 4).1 = true) := by
  refine ⟨fun s today r => ?_, by norm_num [UsageLimiter.check_limit,
    UsageLimiter.consume_credits]⟩
  by_cases hd : today = s.day_start
  · simp only [UsageLimiter.check_limit, hd, ne_eq, not_true_eq_false,
      if_false, if_true, ite_true, ite_false]
    constructor
    · split_ifs with h
      · simp only [Bool.false_eq_true, false_iff, not_le]
        linarith
      · simp only [true_iff]
        linarith [not_lt.mp h]
    · split_ifs <;> rfl
  · simp only [UsageLimiter.check_limit, if_pos (hd : today ≠ s.day_start),
      if_neg hd]
    constructor
    · split_ifs with h
      · simp only [Bool.false_eq_true, false_iff, not_le]
        simpa using h
      · simp only [true_iff]
        have := not_lt.mp h
        simpa using this
    · split_ifs <;> rfl

/-- C10: the day-rollover reset lives only in check_limit.  consume_credits
adds to daily_usage and changes neither day_start nor daily_limit (it never
consults the clock), and get_remaining_balance is the pure read
max(0, daily_limit - daily_usage); so after a day change, credits consumed
and balances read before the next check_limit still count against the
previous day's usage — concretely, a limiter at usage 6 of 10 started on
day 0 that consumes 3 more (regardless of the current date) reaches usage 9
with day_start still 0 and reports balance 1. -/
theorem consume_credits_no_reset :
    (∀ (s : UsageLimiter) (c : ℚ),
      (s.consume_credits c).daily_usage = s.daily_usage + c
      ∧ (s.consume_credits c).day_start = s.day_start
      ∧ (s.consume_credits c).daily_limit = s.daily_limit)
    ∧ (∀ s : UsageLimiter,
        s.get_remaining_balance = max 0 (s.daily_limit - s.daily_usage))
    ∧ ((UsageLimiter.consume_credits ⟨10, 6, 0⟩ 3).daily_usage = 9
       ∧ (UsageLimiter.consume_credits ⟨10, 6, 0⟩ 3).day_start = 0
       ∧ (UsageLimiter.consume_credits ⟨10, 6, 0⟩ 3).get_remaining_balance = 1) := by
  refine ⟨fun s c => ⟨rfl, rfl, rfl⟩, fun s => rfl, ?_, rfl, ?_⟩
  · norm_num [UsageLimiter.consume_credits]
  · norm_num [UsageLimiter.consume_credits, UsageLimiter.get_remaining_balance]

/-- C2: with deduplication enabled (the default), a link not yet seen is
admitted — the candidate passes _is_new_article and, passing the relevance
threshold, its link is added to seen_urls — and processing the same article
again against the updated seen-set is rejected: true the first time, false
the second time. -/
theorem dedup_admits_once (deduplicate_setting : Bool) (seen : List String)
    (a : Article) (min_score : ℚ) (cfg : ScoringConfig)
    (hdedup : deduplicate_setting = true)
    (hnew : seen.contains a.link = false)
    (hpass : min_score ≤ calculate_relevance_score cfg a.title a.excerpt) :
    (process_candidate deduplicate_setting min_score cfg seen a).1 = true
    ∧ (process_candidate deduplicate_setting min_score cfg
        (process_candidate deduplicate_setting min_score cfg seen a).2 a).1
        = false := by
  subst hdedup
  have hnew' : a.link ∉ seen := by simpa using hnew
  constructor
  · simp [process_candidate, is_new_article, hnew', hpass]
  · simp [process_candidate, is_new_article, hnew', hpass]

/-- C2 witness: a fresh scraper run (empty seen-set, default config,
threshold 0.3) admits the article titled "ai news today!" once and rejects
the repeat. -/
theorem dedup_admits_once_witness :
    (process_candidate true 0.3 default_scoring_config []
      { title := "ai news today!", link := "https://x.com/a", excerpt := "",
        source := "TechCrunch" }).1 = true
    ∧ (process_candidate true 0.3 default_scoring_config
        (process_candidate true 0.3 default_scoring_config []
          { title := "ai news today!", link := "https://x.com/a", excerpt := "",
            source := "TechCrunch" }).2
        { title := "ai news today!", link := "https://x.com/a", excerpt := "",
          source := "TechCrunch" }).1 = false := by
  refine dedup_admits_once true [] _ 0.3 default_scoring_config rfl rfl ?_
  have hm : relevance_matches default_scoring_config (lower "ai news today!")
      (lower "") = 1 := by decide
  have hraw : raw_relevance default_scoring_config (lower "ai news today!")
      (lower "") = 20 := by
    simp +decide [raw_relevance, category_raw, ScoringConfig.categories,
      default_scoring_config, match_kind, kw_score]
    norm_num
  show (0.3 : ℚ) ≤ calculate_relevance_score default_scoring_config
    "ai news today!" ""
  simp only [calculate_relevance_score, hm]
  rw [if_pos (by norm_num), hraw]
  norm_num [round3, round_eq]

/-- C6: the claimed retry-with-linear-backoff on HTTP 429 never happens.
The retry machinery of scrape_source (docstring "with retry logic", the
dedicated 429 branch computing wait_time = retry_delay × (attempt + 1) at
lines 138-145) is plainly the intent, but _scrape_web catches every
httpx.HTTPStatusError internally (lines 218-232) and returns an empty
list, so no 429 ever reaches the retry loop: under a fetch that returns
HTTP 429 on every attempt, scrape_source makes exactly one attempt,
performs no backoff sleep at all, raises nothing, and returns zero
articles. -/
theorem scrape_source_swallows_429 (outcomes : Nat → FetchOutcome)
    (max_retries : Nat) (retry_delay : ℚ)
    (h429 : ∀ n, outcomes n = .httpStatusError 429) (hm : 1 ≤ max_retries) :
    (scrape_source_sim outcomes max_retries retry_delay).attempts_made = 1
    ∧ (scrape_source_sim outcomes max_retries retry_delay).delays = []
    ∧ (scrape_source_sim outcomes max_retries retry_delay).result =
        .ok [] := by
  have hpos : 0 < max_retries := hm
  rw [scrape_source_sim]
  simp [hpos, h429 0, scrape_web_sim]

/-- C6 witness: with the default max_retries = 3 and retry_delay = 5 and a
permanently rate-limited fetch, one attempt, no sleeps, empty result. -/
theorem scrape_source_swallows_429_witness :
    (scrape_source_sim (fun _ => .httpStatusError 429) 3 5).attempts_made = 1
    ∧ (scrape_source_sim (fun _ => .httpStatusError 429) 3 5).delays = []
    ∧ (scrape_source_sim (fun _ => .httpStatusError 429) 3 5).result =
        .ok [] :=
  scrape_source_swallows_429 (fun _ => .httpStatusError 429) 3 5
    (fun _ => rfl) (by norm_num)

/-- The absolutized link is empty exactly when the raw href was empty: the
rewrite of lines 334-336 produces a string starting with "https://", and an
empty href is left alone (Python `link and ...` is falsy on ""). -/
theorem resolve_link_empty_iff (src l : String) :
    resolve_link src l = "" ↔ l = "" := by
  unfold resolve_link
  split_ifs with h
  · simp only [Bool.and_eq_true, bne_iff_ne, ne_eq, decide_eq_true_eq] at h
    constructor
    · intro hc
      have := congrArg String.data hc
      simp [String.data_append] at this
    · intro hc
      exact absurd hc h.1
  · exact Iff.rfl

/-- C5 counterexample: the claim reads the rejection threshold as the
configured minimum length (`min_article_length`, default 100), but the code
compares against the literal 10 (line 342): a candidate with a 17-character
title and a valid link is returned as a populated record even though its
title is shorter than the configured minimum of 100, so the claimed
characterization of rejection is false. -/
theorem parse_article_counterexample :
    ¬ (∀ (min_article_length : Nat) (title link excerpt : Option String)
        (src : String),
        parse_article min_article_length title link excerpt src = none ↔
          title.getD "" = "" ∨ link.getD "" = "" ∨
            (title.getD "").length < min_article_length) := by
  intro hclaim
  have hsome : (parse_article 100 (some "Hello world title")
      (some "https://example.com/x") none "TechCrunch").isSome = true := by
    decide
  have hshort : ((some "Hello world title" : Option String).getD "").length
      < 100 := by decide
  have hnone := (hclaim 100 (some "Hello world title")
    (some "https://example.com/x") none "TechCrunch").mpr
    (Or.inr (Or.inr hshort))
  rw [hnone] at hsome
  simp at hsome

/-- C5 amended: the parser rejects a candidate (None, never an exception)
exactly when the title is missing or empty, the link is missing or empty,
or the title is shorter than 10 characters — the threshold is the literal
10 of line 342, not the configured `min_article_length`, which is read and
then unused; every candidate passing these checks yields the populated
record of lines 345-352. -/
theorem parse_article_spec (min_article_length : Nat)
    (title link excerpt : Option String) (src : String) :
    (parse_article min_article_length title link excerpt src = none ↔
      title.getD "" = "" ∨ link.getD "" = "" ∨ (title.getD "").length < 10)
    ∧ (∀ t l, title = some t → link = some l →
        parse_article min_article_length title link excerpt src ≠ none →
        parse_article min_article_length title link excerpt src =
          some { title := t, link := resolve_link src l,
                 excerpt := match excerpt with
                   | some e => truncate500 e
                   | none => "",
                 source := src }) := by
  cases title with
  | none => simp [parse_article]
  | some t =>
      cases link with
      | none => simp [parse_article]
      | some l =>
          constructor
          · simp only [parse_article, Option.map_some', Option.getD_some]
            split_ifs with h
            · simp only [true_iff]
              simp only [Bool.or_eq_true, decide_eq_true_eq] at h
              rcases h with (h | h) | h
              · exact Or.inl h
              · exact Or.inr (Or.inl ((resolve_link_empty_iff src l).mp h))
              · exact Or.inr (Or.inr h)
            · simp only [Bool.or_eq_true, decide_eq_true_eq, not_or] at h
              simp only [reduceCtorEq, false_iff, not_or]
              exact ⟨h.1.1, fun hc => h.1.2 ((resolve_link_empty_iff src l).mpr hc),
                h.2⟩
          · intro t' l' ht hl hne
            cases ht
            cases hl
            simp only [parse_article, Option.map_some'] at hne ⊢
            split_ifs with h
            · rw [if_pos h] at hne
              exact absurd rfl hne
            · rfl

/-- C5 witness: a valid candidate (12-character title, absolute link) is
returned populated, by the amended characterization. -/
theorem parse_article_spec_witness :
    parse_article 100 (some "Big AI story") (some "https://techcrunch.com/x")
      (some "An excerpt") "TechCrunch" =
      some { title := "Big AI story",
             link := resolve_link "TechCrunch" "https://techcrunch.com/x",
             excerpt := truncate500 "An excerpt", source := "TechCrunch" } := by
  refine (parse_article_spec 100 (some "Big AI story")
    (some "https://techcrunch.com/x") (some "An excerpt") "TechCrunch").2
    "Big AI story" "https://techcrunch.com/x" rfl rfl ?_
  have hsome : (parse_article 100 (some "Big AI story")
      (some "https://techcrunch.com/x") (some "An excerpt")
      "TechCrunch").isSome = true := by decide
  intro hn
  rw [hn] at hsome
  simp at hsome

/-! ## Lemmas about the stable descending insertion sort -/

theorem insert_desc_perm {α : Type} (key : α → ℚ) (x : α) (l : List α) :
    (insert_desc key x l).Perm (x :: l) := by
  induction l with
  | nil => exact List.Perm.refl _
  | cons y ys ih =>
      simp only [insert_desc]
      split_ifs with h
      · exact List.Perm.refl _
      · exact (ih.cons y).trans (List.Perm.swap x y ys)

theorem sort_desc_perm {α : Type} (key : α → ℚ) (l : List α) :
    (sort_desc key l).Perm l := by
  suffices h : ∀ acc : List α,
      (l.foldl (fun acc x => insert_desc key x acc) acc).Perm (acc ++ l) by
    simpa [sort_desc] using h []
  induction l with
  | nil => intro acc; simp
  | cons x xs ih =>
      intro acc
      simp only [List.foldl_cons]
      refine (ih (insert_desc key x acc)).trans ?_
      refine (((insert_desc_perm key x acc).append_right xs).trans ?_)
      exact List.perm_middle.symm

theorem length_sort_desc {α : Type} (key : α → ℚ) (l : List α) :
    (sort_desc key l).length = l.length :=
  (sort_desc_perm key l).length_eq

theorem sorted_insert_desc {α : Type} (key : α → ℚ) (x : α) (l : List α)
    (hl : List.Pairwise (fun a b => key b ≤ key a) l) :
    List.Pairwise (fun a b => key b ≤ key a) (insert_desc key x l) := by
  induction l with
  | nil => simp [insert_desc]
  | cons y ys ih =>
      rcases List.pairwise_cons.mp hl with ⟨hy, hys⟩
      simp only [insert_desc]
      split_ifs with h
      · refine List.pairwise_cons.mpr ⟨?_, hl⟩
        intro b hb
        rcases List.mem_cons.mp hb with hb | hb
        · subst hb; exact le_of_lt h
        · exact le_trans (hy b hb) (le_of_lt h)
      · refine List.pairwise_cons.mpr ⟨?_, ih hys⟩
        intro b hb
        have hb' : b ∈ x :: ys := (insert_desc_perm key x ys).mem_iff.mp hb
        rcases List.mem_cons.mp hb' with hb' | hb'
        · subst hb'; exact not_lt.mp h
        · exact hy b hb'

theorem sorted_sort_desc {α : Type} (key : α → ℚ) (l : List α) :
    List.Pairwise (fun a b => key b ≤ key a) (sort_desc key l) := by
  suffices h : ∀ acc : List α, List.Pairwise (fun a b => key b ≤ key a) acc →
      List.Pairwise (fun a b => key b ≤ key a)
        (l.foldl (fun acc x => insert_desc key x acc) acc) by
    exact h [] (by simp)
  induction l with
  | nil => intro acc hacc; simpa using hacc
  | cons x xs ih =>
      intro acc hacc
      exact ih (insert_desc key x acc) (sorted_insert_desc key x acc hacc)

theorem filter_eq_nil_of_key_lt {α : Type} (key : α → ℚ) (q : ℚ) (l : List α)
    (h : ∀ b ∈ l, key b < q) :
    l.filter (fun a => decide (key a = q)) = [] := by
  induction l with
  | nil => rfl
  | cons y ys ih =>
      have hy : ¬ key y = q := ne_of_lt (h y (List.mem_cons_self y ys))
      simp only [List.filter_cons, decide_eq_true_eq, hy, if_false]
      exact ih (fun b hb => h b (List.mem_cons_of_mem y hb))

theorem filter_insert_desc {α : Type} (key : α → ℚ) (q : ℚ) (x : α)
    (l : List α) (hl : List.Pairwise (fun a b => key b ≤ key a) l) :
    (insert_desc key x l).filter (fun a => decide (key a = q)) =
      l.filter (fun a => decide (key a = q)) ++
        (if key x = q then [x] else []) := by
  induction l with
  | nil =>
      simp only [insert_desc, List.filter_nil, List.nil_append, List.filter_cons,
        decide_eq_true_eq]
  | cons y ys ih =>
      rcases List.pairwise_cons.mp hl with ⟨hy, hys⟩
      simp only [insert_desc]
      by_cases h : key y < key x
      · rw [if_pos h]
        by_cases hx : key x = q
        · have hnil : (y :: ys).filter (fun a => decide (key a = q)) = [] := by
            refine filter_eq_nil_of_key_lt key q (y :: ys) ?_
            intro b hb
            have hble : key b ≤ key y := by
              rcases List.mem_cons.mp hb with hb | hb
              · subst hb; exact le_refl _
              · exact hy b hb
            rw [← hx]
            exact lt_of_le_of_lt hble h
          rw [if_pos hx, List.filter_cons, if_pos (decide_eq_true hx), hnil]
          simp
        · rw [if_neg hx, List.append_nil, List.filter_cons,
            if_neg (by simp [hx])]
      · rw [if_neg h, List.filter_cons, List.filter_cons, ih hys]
        by_cases hy' : key y = q
        · rw [if_pos (decide_eq_true hy'), if_pos (decide_eq_true hy'),
            List.cons_append]
        · simp [hy']

theorem filter_sort_desc {α : Type} (key : α → ℚ) (q : ℚ) (l : List α) :
    (sort_desc key l).filter (fun a => decide (key a = q)) =
      l.filter (fun a => decide (key a = q)) := by
  suffices h : ∀ acc : List α, List.Pairwise (fun a b => key b ≤ key a) acc →
      (l.foldl (fun acc x => insert_desc key x acc) acc).filter
          (fun a => decide (key a = q)) =
        acc.filter (fun a => decide (key a = q)) ++
          l.filter (fun a => decide (key a = q)) by
    simpa [sort_desc] using h [] (by simp)
  induction l with
  | nil => intro acc hacc; simp
  | cons x xs ih =>
      intro acc hacc
      simp only [List.foldl_cons]
      rw [ih (insert_desc key x acc) (sorted_insert_desc key x acc hacc),
        filter_insert_desc key q x acc hacc, List.filter_cons]
      by_cases hx : key x = q
      · rw [if_pos hx, if_pos (decide_eq_true hx)]
        simp
      · rw [if_neg hx, if_neg (by simp [hx])]
        simp

/-- A minimal concrete article used by witnesses. -/
def sample_article (src : String) : Article :=
  { title := "t", link := "https://x.com/t", excerpt := "", source := src }

/-- C4 counterexample: in the claimed scenario the report does NOT show
successful = 2 and failed = 1.  A source whose fetch returns a permanent
HTTP 404 produces a task that returns normally with an empty list (the
error is swallowed inside _scrape_web, lines 218-232), so asyncio.gather
sees three plain lists and the isinstance(result, list) test of
scrape_all_sources (line 434) counts successful = 3, failed = 0. -/
theorem scrape_all_sources_counterexample :
    (scrape_source_sim (fun _ => .httpStatusError 404) 3 5).result = .ok []
    ∧ (scrape_all_sources_model ["A", "B", "C"]
        [.ok (List.replicate 5 (sample_article "A")),
         .ok (List.replicate 3 (sample_article "B")),
         (scrape_source_sim (fun _ => .httpStatusError 404) 3 5).result]
        true 50).2.successful_sources = 3
    ∧ (scrape_all_sources_model ["A", "B", "C"]
        [.ok (List.replicate 5 (sample_article "A")),
         .ok (List.replicate 3 (sample_article "B")),
         (scrape_source_sim (fun _ => .httpStatusError 404) 3 5).result]
        true 50).2.failed_sources = 0
    ∧ ¬ ((scrape_all_sources_model ["A", "B", "C"]
        [.ok (List.replicate 5 (sample_article "A")),
         .ok (List.replicate 3 (sample_article "B")),
         (scrape_source_sim (fun _ => .httpStatusError 404) 3 5).result]
        true 50).2.successful_sources = 2
      ∧ (scrape_all_sources_model ["A", "B", "C"]
        [.ok (List.replicate 5 (sample_article "A")),
         .ok (List.replicate 3 (sample_article "B")),
         (scrape_source_sim (fun _ => .httpStatusError 404) 3 5).result]
        true 50).2.failed_sources = 1) := by
  have hres : (scrape_source_sim (fun _ => .httpStatusError 404) 3 5).result
      = .ok [] := by
    norm_num [scrape_source_sim, scrape_web_sim]
  have hrep : (scrape_all_sources_model ["A", "B", "C"]
      [.ok (List.replicate 5 (sample_article "A")),
       .ok (List.replicate 3 (sample_article "B")),
       (scrape_source_sim (fun _ => .httpStatusError 404) 3 5).result]
      true 50).2 = ⟨3, 0, [("A", 5), ("B", 3), ("C", 0)]⟩ := by
    rw [hres]
    simp [scrape_all_sources_model, aggregate_results, List.zip]
  rw [hrep]
  refine ⟨hres, rfl, rfl, ?_⟩
  intro hc
  exact absurd hc.1 (by norm_num)

/-- C4 amended: with three sources of which two succeed (5 and 3 articles,
already threshold-filtered per source) and one whose fetch fails with a
permanent HTTP error, the run does not raise — the failing source's task
returns normally with an empty list because _scrape_web swallows the error
— and no sibling is dropped: every source gets a report entry, the failing
source is recorded with a zero-article outcome in articles_by_source, and
the merged output has all 8 articles (the default output cap is 50 ≥ 8).
But the outcome report counts the failing source as successful:
successful = 3 and failed = 0, not 2 and 1 — the failed branch of the
aggregation (lines 438-440) is unreachable for fetch errors. -/
theorem scrape_all_sources_partial_failure (n1 n2 n3 : String)
    (as bs : List Article) (status max_retries : Nat) (retry_delay : ℚ)
    (max_articles_output : Nat)
    (ha : as.length = 5) (hb : bs.length = 3) (hm : 1 ≤ max_retries)
    (hmax : 8 ≤ max_articles_output) :
    (scrape_source_sim (fun _ => .httpStatusError status) max_retries
        retry_delay).result = .ok []
    ∧ (scrape_all_sources_model [n1, n2, n3]
        [.ok as, .ok bs,
         (scrape_source_sim (fun _ => .httpStatusError status) max_retries
           retry_delay).result]
        true max_articles_output).2.successful_sources = 3
    ∧ (scrape_all_sources_model [n1, n2, n3]
        [.ok as, .ok bs,
         (scrape_source_sim (fun _ => .httpStatusError status) max_retries
           retry_delay).result]
        true max_articles_output).2.failed_sources = 0
    ∧ (scrape_all_sources_model [n1, n2, n3]
        [.ok as, .ok bs,
         (scrape_source_sim (fun _ => .httpStatusError status) max_retries
           retry_delay).result]
        true max_articles_output).1.length = 8
    ∧ (scrape_all_sources_model [n1, n2, n3]
        [.ok as, .ok bs,
         (scrape_source_sim (fun _ => .httpStatusError status) max_retries
           retry_delay).result]
        true max_articles_output).2.articles_by_source =
          [(n1, 5), (n2, 3), (n3, 0)] := by
  have hres : (scrape_source_sim (fun _ => .httpStatusError status)
      max_retries retry_delay).result = .ok [] := by
    have hpos : 0 < max_retries := hm
    rw [scrape_source_sim]
    simp [hpos, scrape_web_sim]
  have hmodel : scrape_all_sources_model [n1, n2, n3]
      [.ok as, .ok bs,
       (scrape_source_sim (fun _ => .httpStatusError status) max_retries
         retry_delay).result]
      true max_articles_output =
      ((sort_desc (fun a => a.relevance_score)
          (as ++ (bs ++ ([] ++ [])))).take max_articles_output,
       ⟨3, 0, [(n1, as.length), (n2, bs.length), (n3, 0)]⟩) := by
    rw [hres]
    simp [scrape_all_sources_model, aggregate_results, List.zip]
  rw [hmodel]
  refine ⟨hres, rfl, rfl, ?_, by simp [ha, hb]⟩
  rw [List.length_take, length_sort_desc]
  simp only [List.length_append, List.length_nil, ha, hb]
  omega

/-- C4 witness: three concrete sources, two returning 5 and 3 concrete
articles and one whose fetch hits a permanent HTTP 404 (default
max_retries 3, retry_delay 5), under the default output cap of 50. -/
theorem scrape_all_sources_partial_failure_witness :
    (scrape_source_sim (fun _ => .httpStatusError 404) 3 5).result = .ok []
    ∧ (scrape_all_sources_model ["A", "B", "C"]
        [.ok (List.replicate 5 (sample_article "A")),
         .ok (List.replicate 3 (sample_article "B")),
         (scrape_source_sim (fun _ => .httpStatusError 404) 3 5).result]
        true 50).2.successful_sources = 3
    ∧ (scrape_all_sources_model ["A", "B", "C"]
        [.ok (List.replicate 5 (sample_article "A")),
         .ok (List.replicate 3 (sample_article "B")),
         (scrape_source_sim (fun _ => .httpStatusError 404) 3 5).result]
        true 50).2.failed_sources = 0
    ∧ (scrape_all_sources_model ["A", "B", "C"]
        [.ok (List.replicate 5 (sample_article "A")),
         .ok (List.replicate 3 (sample_article "B")),
         (scrape_source_sim (fun _ => .httpStatusError 404) 3 5).result]
        true 50).1.length = 8
    ∧ (scrape_all_sources_model ["A", "B", "C"]
        [.ok (List.replicate 5 (sample_article "A")),
         .ok (List.replicate 3 (sample_article "B")),
         (scrape_source_sim (fun _ => .httpStatusError 404) 3 5).result]
        true 50).2.articles_by_source = [("A", 5), ("B", 3), ("C", 0)] :=
  scrape_all_sources_partial_failure "A" "B" "C" _ _ 404 3 5 50
    (List.length_replicate 5 _) (List.length_replicate 3 _) (by norm_num)
    (by norm_num)

/-! ## Lemmas about rank assignment and priority scoring -/

theorem map_rank_assign_ranks (n : Nat) (l : List Article) :
    (assign_ranks n l).map (fun a => a.priority_rank) =
      List.range' n l.length := by
  induction l generalizing n with
  | nil => rfl
  | cons a rest ih =>
      simp only [assign_ranks, List.map_cons, List.length_cons,
        List.range'_succ, ih]

theorem map_clear_rank_assign_ranks (n : Nat) (l : List Article) :
    (assign_ranks n l).map clear_rank = l.map clear_rank := by
  induction l generalizing n with
  | nil => rfl
  | cons a rest ih =>
      simp only [assign_ranks, List.map_cons, ih]
      rfl

theorem map_score_assign_ranks (n : Nat) (l : List Article) :
    (assign_ranks n l).map (fun a => a.priority_score) =
      l.map (fun a => a.priority_score) := by
  induction l generalizing n with
  | nil => rfl
  | cons a rest ih =>
      simp only [assign_ranks, List.map_cons, ih]

theorem clear_rank_eq_self (a : Article) (h : a.priority_rank = 0) :
    clear_rank a = a := by
  cases a
  simp only [clear_rank]
  simp_all

/-- The clamp of calculate_priority_score keeps every score in [0, 100],
including the 50.0 default of the exception path. -/
theorem calculate_priority_score_bounds (a : Article) :
    0 ≤ calculate_priority_score a ∧ calculate_priority_score a ≤ 100 := by
  unfold calculate_priority_score
  split
  · norm_num
  · exact ⟨le_min (le_max_right _ _) (by norm_num), min_le_right _ _⟩

/-- An article whose analysis value is malformed gets the default 50.0. -/
theorem calculate_priority_score_malformed (a : Article)
    (h : a.analysis = .malformed) : calculate_priority_score a = 50 := by
  unfold calculate_priority_score
  rw [h]

theorem map_clear_rank_filter_score (q : ℚ) (X : List Article) :
    (X.filter (fun a => decide (a.priority_score = q))).map clear_rank =
      (X.map clear_rank).filter (fun a => decide (a.priority_score = q)) := by
  induction X with
  | nil => rfl
  | cons x xs ih =>
      simp only [List.filter_cons, List.map_cons]
      have hcx : (clear_rank x).priority_score = x.priority_score := rfl
      rw [hcx]
      by_cases hx : x.priority_score = q
      · rw [if_pos (decide_eq_true hx), if_pos (decide_eq_true hx),
          List.map_cons, ih]
      · rw [if_neg (by simp [hx]), if_neg (by simp [hx])]
        exact ih

/-- Every element the scoring pass emits carries rank 0, so clearing ranks
on the sorted scored list is the identity. -/
theorem map_clear_rank_sort_scored (l : List Article) :
    (sort_desc (fun a => a.priority_score) (l.map score_article)).map
        clear_rank =
      sort_desc (fun a => a.priority_score) (l.map score_article) := by
  have h0 : ∀ a ∈ sort_desc (fun a => a.priority_score) (l.map score_article),
      clear_rank a = a := by
    intro a ha
    have ha' : a ∈ l.map score_article :=
      (sort_desc_perm (fun a => a.priority_score) (l.map score_article)).mem_iff.mp ha
    rcases List.mem_map.mp ha' with ⟨b, _, hb⟩
    refine clear_rank_eq_self a ?_
    rw [← hb]
    rfl
  exact (List.map_congr_left h0).trans (List.map_id _)

/-- C7: after ranking N articles the assigned ranks are exactly 1..N in
output order (a permutation of 1..N with no gaps or repeats), the output is
weakly descending in priority score, every priority score lies in [0, 100],
and for every score value the output articles carrying that score are, in
order, exactly the scored input articles carrying it — the sort is stable,
preserving original relative order of equal scores. -/
theorem prioritize_articles_spec (l : List Article) :
    ((prioritize_articles l).map (fun a => a.priority_rank) =
      List.range' 1 l.length)
    ∧ List.Pairwise (fun a b => b.priority_score ≤ a.priority_score)
        (prioritize_articles l)
    ∧ (∀ a ∈ prioritize_articles l,
        0 ≤ a.priority_score ∧ a.priority_score ≤ 100)
    ∧ (∀ q : ℚ,
        ((prioritize_articles l).filter
            (fun a => decide (a.priority_score = q))).map clear_rank =
          (l.map score_article).filter
            (fun a => decide (a.priority_score = q))) := by
  refine ⟨?_, ?_, ?_, ?_⟩
  · rw [prioritize_articles, map_rank_assign_ranks,
      length_sort_desc, List.length_map]
  · rw [prioritize_articles]
    have h2 : List.Pairwise (fun p q : ℚ => q ≤ p)
        ((assign_ranks 1 (sort_desc (fun a => a.priority_score)
          (l.map score_article))).map (fun a => a.priority_score)) := by
      rw [map_score_assign_ranks]
      exact List.pairwise_map.mpr
        (sorted_sort_desc (fun a => a.priority_score) (l.map score_article))
    exact List.pairwise_map.mp h2
  · intro a ha
    rw [prioritize_articles] at ha
    have h3 : a.priority_score ∈ (assign_ranks 1
        (sort_desc (fun x => x.priority_score) (l.map score_article))).map
          (fun x => x.priority_score) := List.mem_map_of_mem _ ha
    rw [map_score_assign_ranks] at h3
    have h4 : a.priority_score ∈ (l.map score_article).map
        (fun x => x.priority_score) :=
      (((sort_desc_perm (fun x => x.priority_score)
        (l.map score_article))).map (fun x => x.priority_score)).mem_iff.mp h3
    simp only [List.map_map, List.mem_map, Function.comp] at h4
    obtain ⟨b, _, hbe⟩ := h4
    rw [← hbe]
    exact calculate_priority_score_bounds b
  · intro q
    rw [prioritize_articles, map_clear_rank_filter_score,
      map_clear_rank_assign_ranks, map_clear_rank_sort_scored,
      filter_sort_desc]

/-- A concrete article whose analysis entry has a shape that raises inside
calculate_priority_score. -/
def sample_malformed_article : Article :=
  { title := "t1", link := "https://x.com/1", excerpt := "", source := "A",
    analysis := .malformed }

/-- C8: an exception while scoring one article does not abort the batch:
the failing article gets the default score 50.0, and the ranked output is
still a permutation of the whole scored batch with ranks 1..N — every other
article is scored by calculate_priority_score and ranked. -/
theorem prioritize_articles_survives_error (l : List Article) (a : Article)
    (ha : a ∈ l) (hm : a.analysis = .malformed) :
    calculate_priority_score a = 50
    ∧ (score_article a).priority_score = 50
    ∧ ((prioritize_articles l).map clear_rank).Perm (l.map score_article)
    ∧ score_article a ∈ (prioritize_articles l).map clear_rank
    ∧ ((prioritize_articles l).map (fun x => x.priority_rank) =
        List.range' 1 l.length) := by
  have h50 := calculate_priority_score_malformed a hm
  have hperm : ((prioritize_articles l).map clear_rank).Perm
      (l.map score_article) := by
    rw [prioritize_articles, map_clear_rank_assign_ranks,
      map_clear_rank_sort_scored]
    exact sort_desc_perm _ _
  refine ⟨h50, h50, hperm, ?_, ?_⟩
  · exact hperm.mem_iff.mpr (List.mem_map_of_mem score_article ha)
  · rw [prioritize_articles, map_rank_assign_ranks,
      length_sort_desc, List.length_map]

/-- C8 witness: a two-article batch whose first article has a malformed
analysis entry: the default 50.0 is assigned, both articles appear scored in
the output, and the ranks are 1..2. -/
theorem prioritize_articles_survives_error_witness :
    calculate_priority_score sample_malformed_article = 50
    ∧ (score_article sample_malformed_article).priority_score = 50
    ∧ ((prioritize_articles [sample_malformed_article,
        sample_article "B"]).map clear_rank).Perm
          ([sample_malformed_article, sample_article "B"].map score_article)
    ∧ score_article sample_malformed_article ∈
        (prioritize_articles [sample_malformed_article,
          sample_article "B"]).map clear_rank
    ∧ ((prioritize_articles [sample_malformed_article,
        sample_article "B"]).map (fun x => x.priority_rank) =
          List.range' 1 2) :=
  prioritize_articles_survives_error
    [sample_malformed_article, sample_article "B"] sample_malformed_article
    (List.mem_cons_self _ _) rfl

/-! ## Lemmas about the relevance scorer -/

theorem round3_mono {x y : ℚ} (h : x ≤ y) : round3 x ≤ round3 y := by
  unfold round3
  have hr : round (x * 1000) ≤ round (y * 1000) := by
    rw [round_eq, round_eq]
    exact Int.floor_le_floor (by linarith)
  have hrq : ((round (x * 1000) : ℤ) : ℚ) ≤ ((round (y * 1000) : ℤ) : ℚ) := by
    exact_mod_cast hr
  linarith

theorem round3_zero : round3 0 = 0 := by
  unfold round3
  norm_num

theorem round3_one : round3 1 = 1 := by
  unfold round3
  rw [show ((1 : ℚ) * 1000) = ((1000 : ℤ) : ℚ) by norm_num, round_intCast]
  norm_num

theorem category_matches_eq_zero_imp (t e : String) (w m : ℚ)
    (kws : List String) (h : category_matches t e kws = 0) :
    category_raw t e w m kws = 0 := by
  induction kws with
  | nil => rfl
  | cons k ks ih =>
      simp only [category_matches, List.map_cons, List.sum_cons] at h
      simp only [category_raw, List.map_cons, List.sum_cons]
      have h2 : category_matches t e ks = 0 := by
        simp only [category_matches]
        omega
      cases hk : match_kind t e k with
      | inTitle => rw [hk] at h; simp [kw_matches] at h
      | inExcerpt => rw [hk] at h; simp [kw_matches] at h
      | noMatch =>
          have h3 := ih h2
          simp only [category_raw] at h3
          rw [show kw_score w m MatchKind.noMatch = 0 from rfl, zero_add, h3]

theorem raw_relevance_eq_zero (cfg : ScoringConfig) (t e : String)
    (h : relevance_matches cfg t e = 0) : raw_relevance cfg t e = 0 := by
  simp only [relevance_matches, ScoringConfig.categories, List.map_cons,
    List.map_nil, List.sum_cons, List.sum_nil] at h
  simp only [raw_relevance, ScoringConfig.categories, List.map_cons,
    List.map_nil, List.sum_cons, List.sum_nil]
  rw [category_matches_eq_zero_imp t e _ _ _ (by omega),
    category_matches_eq_zero_imp t e _ _ _ (by omega),
    category_matches_eq_zero_imp t e _ _ _ (by omega),
    category_matches_eq_zero_imp t e _ _ _ (by omega),
    category_matches_eq_zero_imp t e _ _ _ (by omega)]
  norm_num

theorem category_raw_nonneg (t e : String) (w m : ℚ) (kws : List String)
    (hw : 0 ≤ w) (hm : 0 ≤ m) : 0 ≤ category_raw t e w m kws := by
  refine List.sum_nonneg ?_
  intro x hx
  rcases List.mem_map.mp hx with ⟨kw, _, rfl⟩
  cases hk : match_kind t e kw with
  | inTitle => simpa [kw_score] using mul_nonneg hw hm
  | inExcerpt => simpa [kw_score] using hw
  | noMatch => simp [kw_score]

theorem raw_relevance_nonneg (cfg : ScoringConfig) (t e : String)
    (hw : ∀ c ∈ cfg.categories, 0 ≤ c.2) (hm : 0 ≤ cfg.title_multiplier) :
    0 ≤ raw_relevance cfg t e := by
  refine List.sum_nonneg ?_
  intro x hx
  rcases List.mem_map.mp hx with ⟨c, hc, rfl⟩
  exact category_raw_nonneg t e c.2 cfg.title_multiplier c.1 (hw c hc) hm

/-- C3: the relevance score equals min(raw / 50, 1.0) rounded to 3 decimal
places, where raw is the weighted keyword-match sum; an article with zero
keyword matches scores exactly 0.0; and under the configuration invariant
that weights and the title multiplier are non-negative the score always
lies in [0, 1]. -/
theorem calculate_relevance_score_spec (cfg : ScoringConfig)
    (title excerpt : String)
    (hw : ∀ c ∈ cfg.categories, 0 ≤ c.2) (hm : 0 ≤ cfg.title_multiplier) :
    calculate_relevance_score cfg title excerpt =
      round3 (min (raw_relevance cfg (lower title) (lower excerpt) / 50) 1)
    ∧ (relevance_matches cfg (lower title) (lower excerpt) = 0 →
        calculate_relevance_score cfg title excerpt = 0)
    ∧ 0 ≤ calculate_relevance_score cfg title excerpt
    ∧ calculate_relevance_score cfg title excerpt ≤ 1 := by
  have hb : calculate_relevance_score cfg title excerpt =
      round3 (min (raw_relevance cfg (lower title) (lower excerpt) / 50) 1) := by
    simp only [calculate_relevance_score]
    split_ifs with h
    · rfl
    · have h0 : relevance_matches cfg (lower title) (lower excerpt) = 0 := by
        omega
      rw [raw_relevance_eq_zero cfg _ _ h0]
      rw [show min ((0 : ℚ) / 50) 1 = 0 by norm_num, round3_zero]
  have hnn : 0 ≤ raw_relevance cfg (lower title) (lower excerpt) :=
    raw_relevance_nonneg cfg _ _ hw hm
  refine ⟨hb, ?_, ?_, ?_⟩
  · intro h0
    rw [hb, raw_relevance_eq_zero cfg _ _ h0]
    rw [show min ((0 : ℚ) / 50) 1 = 0 by norm_num, round3_zero]
  · rw [hb]
    have : (0 : ℚ) ≤ min (raw_relevance cfg (lower title) (lower excerpt) / 50) 1 :=
      le_min (by positivity) (by norm_num)
    calc (0 : ℚ) = round3 0 := round3_zero.symm
      _ ≤ _ := round3_mono this
  · rw [hb]
    calc round3 (min (raw_relevance cfg (lower title) (lower excerpt) / 50) 1)
        ≤ round3 1 := round3_mono (min_le_right _ _)
      _ = 1 := round3_one

/-- C3 witness: the default configuration satisfies the weight invariant,
and the theorem is applied to a concrete article with one title match. -/
theorem calculate_relevance_score_spec_witness :
    calculate_relevance_score default_scoring_config "ai news today!" "" =
      round3 (min (raw_relevance default_scoring_config
        (lower "ai news today!") (lower "") / 50) 1)
    ∧ (relevance_matches default_scoring_config (lower "ai news today!")
        (lower "") = 0 →
        calculate_relevance_score default_scoring_config "ai news today!" "" = 0)
    ∧ 0 ≤ calculate_relevance_score default_scoring_config "ai news today!" ""
    ∧ calculate_relevance_score default_scoring_config "ai news today!" "" ≤ 1 :=
  calculate_relevance_score_spec default_scoring_config "ai news today!" ""
    (by
      intro c hc
      simp only [ScoringConfig.categories, default_scoring_config,
        List.mem_cons, List.not_mem_nil, or_false] at hc
      rcases hc with rfl | rfl | rfl | rfl | rfl <;> norm_num)
    (by norm_num [default_scoring_config])

/-! ## Lemmas for comparing title and excerpt matches (C9) -/

theorem category_raw_append (t e : String) (w m : ℚ) (xs ys : List String) :
    category_raw t e w m (xs ++ ys) =
      category_raw t e w m xs + category_raw t e w m ys := by
  simp [category_raw, List.map_append, List.sum_append]

theorem category_raw_cons (t e : String) (w m : ℚ) (k : String)
    (ks : List String) :
    category_raw t e w m (k :: ks) =
      kw_score w m (match_kind t e k) + category_raw t e w m ks := by
  simp [category_raw]

theorem category_raw_congr (t e ta ea : String) (w m : ℚ) (kws : List String)
    (h : ∀ kw ∈ kws, match_kind t e kw = match_kind ta ea kw) :
    category_raw t e w m kws = category_raw ta ea w m kws := by
  unfold category_raw
  congr 1
  exact List.map_congr_left fun kw hkw => by rw [h kw hkw]

theorem category_matches_pos (t e : String) (kws : List String) (k : String)
    (hk : k ∈ kws) (hkind : match_kind t e k ≠ .noMatch) :
    0 < category_matches t e kws := by
  have h1 : kw_matches (match_kind t e k) = 1 := by
    cases hmk : match_kind t e k with
    | inTitle => rfl
    | inExcerpt => rfl
    | noMatch => exact absurd hmk hkind
  have h2 : kw_matches (match_kind t e k) ∈
      kws.map (fun kw => kw_matches (match_kind t e kw)) :=
    List.mem_map_of_mem _ hk
  have h3 : kw_matches (match_kind t e k) ≤ category_matches t e kws :=
    List.single_le_sum (fun x _ => Nat.zero_le x) _ h2
  omega

/-- A raw-score gap of at least 1/20 survives the division by 50 and the
rounding to 3 decimals, as long as the larger raw score stays at or below
the normalization cap 50. -/
theorem round3_div50_strict {rA rB : ℚ} (h : rA + 1/20 ≤ rB)
    (hcap : rB ≤ 50) :
    round3 (min (rA / 50) 1) < round3 (min (rB / 50) 1) := by
  have hminA : min (rA / 50) 1 = rA / 50 := min_eq_left (by linarith)
  have hminB : min (rB / 50) 1 = rB / 50 := min_eq_left (by linarith)
  rw [hminA, hminB]
  unfold round3
  have key : round (rA / 50 * 1000) + 1 ≤ round (rB / 50 * 1000) := by
    calc round (rA / 50 * 1000) + 1 = round (rA / 50 * 1000 + 1) :=
          (round_add_one _).symm
      _ ≤ round (rB / 50 * 1000) := by
          rw [round_eq, round_eq]
          exact Int.floor_le_floor (by linarith)
  have keyq : ((round (rA / 50 * 1000) : ℤ) : ℚ) + 1 ≤
      ((round (rB / 50 * 1000) : ℤ) : ℚ) := by exact_mod_cast key
  have h1000 : (0 : ℚ) < 1000 := by norm_num
  rw [div_lt_div_iff₀ h1000 h1000]
  nlinarith [keyq]

/-- C9 counterexample: at the normalization cap the strict inequality
fails.  Under the default configuration take the excerpt "ai" and the
titles "machine learning artificial intelligence" (keyword "ai" matches
only in the excerpt) versus "ai machine learning artificial intelligence"
(keyword "ai" matches in the title); all other primary keywords match
identically (in the title for both).  The raw scores are 50 and 60, both
normalize to min(raw/50, 1.0) = 1.0, so the title-matching article does NOT
score strictly higher — the scores are equal. -/
theorem relevance_title_vs_excerpt_counterexample :
    match_kind (lower "ai machine learning artificial intelligence")
      (lower "ai") "ai" = .inTitle
    ∧ match_kind (lower "machine learning artificial intelligence")
        (lower "ai") "ai" = .inExcerpt
    ∧ (∀ kw ∈ default_scoring_config.primary_keywords, kw ≠ "ai" →
        match_kind (lower "ai machine learning artificial intelligence")
            (lower "ai") kw =
          match_kind (lower "machine learning artificial intelligence")
            (lower "ai") kw)
    ∧ calculate_relevance_score default_scoring_config
        "ai machine learning artificial intelligence" "ai" =
      calculate_relevance_score default_scoring_config
        "machine learning artificial intelligence" "ai"
    ∧ ¬ (calculate_relevance_score default_scoring_config
          "machine learning artificial intelligence" "ai" <
        calculate_relevance_score default_scoring_config
          "ai machine learning artificial intelligence" "ai") := by
  have hB : calculate_relevance_score default_scoring_config
      "ai machine learning artificial intelligence" "ai" = 1 := by
    have hm : 0 < relevance_matches default_scoring_config
        (lower "ai machine learning artificial intelligence") (lower "ai") := by
      decide
    have hraw : raw_relevance default_scoring_config
        (lower "ai machine learning artificial intelligence") (lower "ai")
        = 60 := by
      simp +decide [raw_relevance, category_raw, ScoringConfig.categories,
        default_scoring_config, match_kind, kw_score]
      norm_num
    simp only [calculate_relevance_score]
    rw [if_pos hm, hraw, show min ((60 : ℚ) / 50) 1 = 1 by norm_num, round3_one]
  have hA : calculate_relevance_score default_scoring_config
      "machine learning artificial intelligence" "ai" = 1 := by
    have hm : 0 < relevance_matches default_scoring_config
        (lower "machine learning artificial intelligence") (lower "ai") := by
      decide
    have hraw : raw_relevance default_scoring_config
        (lower "machine learning artificial intelligence") (lower "ai")
        = 50 := by
      simp +decide [raw_relevance, category_raw, ScoringConfig.categories,
        default_scoring_config, match_kind, kw_score]
      norm_num
    simp only [calculate_relevance_score]
    rw [if_pos hm, hraw, show min ((50 : ℚ) / 50) 1 = 1 by norm_num, round3_one]
  refine ⟨by decide, by decide, by decide, by rw [hA, hB], ?_⟩
  rw [hA, hB]
  exact lt_irrefl 1

/-- C9 amended: an article matching a primary-category keyword in the title
scores strictly higher than an otherwise identical article matching the
same keyword only in the excerpt, PROVIDED the title-matching article's raw
score does not exceed the normalization cap 50 (at the cap both normalize
to 1.0) and the extra weight of a title match,
primary_weight × (title_multiplier − 1), is at least 1/20 so that it
survives the 3-decimal rounding (with the default weights it is 10).
"Otherwise identical" means: every other keyword of every category matches
in the same place (title/excerpt/neither) for both articles. -/
theorem relevance_title_beats_excerpt (cfg : ScoringConfig)
    (tA eA tB eB k : String) (l1 l2 : List String)
    (hsplit : cfg.primary_keywords = l1 ++ k :: l2)
    (hkB : match_kind (lower tB) (lower eB) k = .inTitle)
    (hkA : match_kind (lower tA) (lower eA) k = .inExcerpt)
    (hsame1 : ∀ kw ∈ l1 ++ l2,
      match_kind (lower tB) (lower eB) kw = match_kind (lower tA) (lower eA) kw)
    (hsame2 : ∀ kw ∈ cfg.secondary_keywords,
      match_kind (lower tB) (lower eB) kw = match_kind (lower tA) (lower eA) kw)
    (hsame3 : ∀ kw ∈ cfg.tertiary_keywords,
      match_kind (lower tB) (lower eB) kw = match_kind (lower tA) (lower eA) kw)
    (hsame4 : ∀ kw ∈ cfg.technology_keywords,
      match_kind (lower tB) (lower eB) kw = match_kind (lower tA) (lower eA) kw)
    (hsame5 : ∀ kw ∈ cfg.business_keywords,
      match_kind (lower tB) (lower eB) kw = match_kind (lower tA) (lower eA) kw)
    (hgap : 1/20 ≤ cfg.primary_weight * (cfg.title_multiplier - 1))
    (hcap : raw_relevance cfg (lower tB) (lower eB) ≤ 50) :
    calculate_relevance_score cfg tA eA <
      calculate_relevance_score cfg tB eB := by
  have hcatP : category_raw (lower tB) (lower eB) cfg.primary_weight
      cfg.title_multiplier cfg.primary_keywords =
      category_raw (lower tA) (lower eA) cfg.primary_weight
        cfg.title_multiplier cfg.primary_keywords +
        (cfg.primary_weight * cfg.title_multiplier - cfg.primary_weight) := by
    rw [hsplit, category_raw_append, category_raw_append,
      category_raw_cons, category_raw_cons, hkB, hkA,
      category_raw_congr (lower tB) (lower eB) (lower tA) (lower eA)
        cfg.primary_weight cfg.title_multiplier l1
        (fun kw hkw => hsame1 kw (List.mem_append_left _ hkw)),
      category_raw_congr (lower tB) (lower eB) (lower tA) (lower eA)
        cfg.primary_weight cfg.title_multiplier l2
        (fun kw hkw => hsame1 kw (List.mem_append_right _ hkw))]
    simp only [kw_score]
    ring
  have hraw : raw_relevance cfg (lower tB) (lower eB) =
      raw_relevance cfg (lower tA) (lower eA) +
        (cfg.primary_weight * cfg.title_multiplier - cfg.primary_weight) := by
    simp only [raw_relevance, ScoringConfig.categories, List.map_cons,
      List.map_nil, List.sum_cons, List.sum_nil]
    rw [hcatP,
      category_raw_congr (lower tB) (lower eB) (lower tA) (lower eA)
        cfg.secondary_weight cfg.title_multiplier _ hsame2,
      category_raw_congr (lower tB) (lower eB) (lower tA) (lower eA)
        cfg.tertiary_weight cfg.title_multiplier _ hsame3,
      category_raw_congr (lower tB) (lower eB) (lower tA) (lower eA)
        cfg.technology_weight cfg.title_multiplier _ hsame4,
      category_raw_congr (lower tB) (lower eB) (lower tA) (lower eA)
        cfg.business_weight cfg.title_multiplier _ hsame5]
    ring
  have hkmem : k ∈ cfg.primary_keywords := by
    rw [hsplit]
    exact List.mem_append_right _ (List.mem_cons_self _ _)
  have hmB : 0 < relevance_matches cfg (lower tB) (lower eB) := by
    have h1 : 0 < category_matches (lower tB) (lower eB) cfg.primary_keywords :=
      category_matches_pos _ _ _ k hkmem (by rw [hkB]; simp)
    simp only [relevance_matches, ScoringConfig.categories, List.map_cons,
      List.map_nil, List.sum_cons, List.sum_nil]
    omega
  have hmA : 0 < relevance_matches cfg (lower tA) (lower eA) := by
    have h1 : 0 < category_matches (lower tA) (lower eA) cfg.primary_keywords :=
      category_matches_pos _ _ _ k hkmem (by rw [hkA]; simp)
    simp only [relevance_matches, ScoringConfig.categories, List.map_cons,
      List.map_nil, List.sum_cons, List.sum_nil]
    omega
  have hwm : cfg.primary_weight * cfg.title_multiplier - cfg.primary_weight =
      cfg.primary_weight * (cfg.title_multiplier - 1) := by ring
  simp only [calculate_relevance_score]
  rw [if_pos hmA, if_pos hmB]
  exact round3_div50_strict (by rw [hraw, hwm]; linarith) hcap

/-- C9 witness (amended): under the default configuration, "ai" in the
title ("ai news today!") beats "ai" only in the excerpt ("complex news
today!" with excerpt "ai stuff"): raw scores 20 versus 10, scores 0.4
versus 0.2. -/
theorem relevance_title_beats_excerpt_witness :
    calculate_relevance_score default_scoring_config
      "complex news today!" "ai stuff" <
    calculate_relevance_score default_scoring_config
      "ai news today!" "ai stuff" := by
  refine relevance_title_beats_excerpt default_scoring_config
    "complex news today!" "ai stuff" "ai news today!" "ai stuff" "ai"
    [] ["artificial intelligence", "machine learning"] rfl (by decide)
    (by decide) (by decide) (by decide) (by decide) (by decide) (by decide)
    (by norm_num [default_scoring_config]) ?_
  have hraw : raw_relevance default_scoring_config (lower "ai news today!")
      (lower "ai stuff") = 20 := by
    simp +decide [raw_relevance, category_raw, ScoringConfig.categories,
      default_scoring_config, match_kind, kw_score]
    norm_num
  rw [hraw]
  norm_num
